import Mathlib

/-!
Verification of the solar-panel-api MQTT subsystem.

Shallow embedding of:
  * `MQTTClient._topic_matches`, `MQTTClient._on_message`,
    `MQTTClient.connect` / `_on_connect` / `_on_disconnect`
    (src/app/core/mqtt_client.py);
  * `MQTTService.handle_solar_panel_data` (src/app/services/mqtt_service.py);
  * `prepare_features` (src/app/services/ml_service.py).

Python strings are Lean `String`s; topics are split on "/" exactly as
Python's `str.split('/')` (Lean's `String.splitOn` agrees, including the
empty-string case).  Machine floats are idealised as exact rationals `ℚ`;
the one irrational quantity (`np.std`, a square root) is carried as its
square (the population variance).  Fallible collaborators (image upload,
ML predictor, DL predictor, the document store) are oracles passed as
explicit arguments, and the handler returns an explicit effect record.
-/

namespace SolarPanelApi

/-- Helper of `splitSlash`: accumulate the current segment (reversed)
while scanning the character list. -/
def splitSlashAux : List Char → List Char → List String
  | [], acc => [String.mk acc.reverse]
  | c :: cs, acc =>
    if c = '/' then String.mk acc.reverse :: splitSlashAux cs []
    else splitSlashAux cs (c :: acc)

/-- Python's `str.split('/')` (as used by `_topic_matches` and
`handle_solar_panel_data`): split on every `/`, keeping empty segments,
and produce `[""]` for the empty string.  Structurally recursive so that
concrete instances evaluate inside the kernel. -/
def splitSlash (s : String) : List String := splitSlashAux s.data []

/-- The segment loop of `MQTTClient._topic_matches`: walk the pattern
segments in order; if the topic runs out first, fail; a `#` pattern
segment succeeds immediately; a literal segment that is neither `+` nor
equal to the topic segment fails; after the loop the remaining segment
counts must agree (`len(topic_parts) == len(pattern_parts)`). -/
def matchSegs : List String → List String → Bool
  | ts, [] => ts.isEmpty
  | [], _ :: _ => false
  | t :: ts, p :: ps =>
    if p == "#" then true
    else if p != "+" && p != t then false
    else matchSegs ts ps

/-- `MQTTClient._topic_matches(topic, pattern)`: split both strings on
`/` and run the segment loop. -/
def topic_matches (topic pattern : String) : Bool :=
  matchSegs (splitSlash topic) (splitSlash pattern)

/-- Peel the index-0 case off a bounded universal quantifier. -/
theorem forall_lt_succ_head {n : ℕ} {Q : ℕ → Prop} :
    (∀ i, i < n + 1 → Q i) ↔ Q 0 ∧ ∀ i, i < n → Q (i + 1) := by
  constructor
  · intro h
    exact ⟨h 0 (Nat.succ_pos n), fun i hi => h (i + 1) (by omega)⟩
  · rintro ⟨h0, hs⟩ i hi
    cases i with
    | zero => exact h0
    | succ j => exact hs j (by omega)

/-- Characterisation of the segment loop when the pattern has no `#`
segment: success is equivalent to equal lengths plus a pointwise
`+`-or-equal condition. -/
theorem matchSegs_no_hash (ps : List String) (hP : "#" ∉ ps) (ts : List String) :
    matchSegs ts ps = true ↔
      ts.length = ps.length ∧
      ∀ i, i < ps.length → ps.getD i "" = "+" ∨ ps.getD i "" = ts.getD i "" := by
  induction ps generalizing ts with
  | nil =>
    cases ts <;> simp [matchSegs]
  | cons p ps ih =>
    have hp : p ≠ "#" := fun h => hP (by simp [h])
    have hPs : "#" ∉ ps := fun h => hP (List.mem_cons_of_mem _ h)
    cases ts with
    | nil =>
      simp [matchSegs]
    | cons t ts =>
      by_cases hpt : p = "+" ∨ p = t
      · have hcond : (p != "+" && p != t) = false := by
          rcases hpt with h | h <;> simp [h]
        have hstep : matchSegs (t :: ts) (p :: ps) = matchSegs ts ps := by
          simp [matchSegs, hp, hcond]
        rw [hstep, ih hPs ts]
        constructor
        · rintro ⟨hlen, hall⟩
          refine ⟨by simpa using hlen, ?_⟩
          simp only [List.length_cons]
          rw [forall_lt_succ_head]
          exact ⟨by simpa using hpt, fun i hi => by simpa using hall i hi⟩
        · rintro ⟨hlen, hall⟩
          simp only [List.length_cons] at hall
          rw [forall_lt_succ_head] at hall
          exact ⟨by simpa using hlen, fun i hi => by simpa using hall.2 i hi⟩
      · push_neg at hpt
        have hcond : (p != "+" && p != t) = true := by
          simp [hpt.1, hpt.2]
        have hstep : matchSegs (t :: ts) (p :: ps) = false := by
          simp [matchSegs, hp, hcond]
        rw [hstep]
        constructor
        · intro h; cases h
        · rintro ⟨-, hall⟩
          have h0 := hall 0 (Nat.succ_pos _)
          simp [hpt.1, hpt.2] at h0

/-- Characterisation of the segment loop when the pattern is a
`#`-free prefix followed by a final `#`: success is equivalent to the
topic having STRICTLY more segments than the prefix (the `i >=
len(topic_parts)` test precedes the `#` test, so a topic consisting of
exactly the prefix does not match) plus the pointwise prefix
condition. -/
theorem matchSegs_hash (qs : List String) (hq : "#" ∉ qs) (ts : List String) :
    matchSegs ts (qs ++ ["#"]) = true ↔
      qs.length < ts.length ∧
      ∀ i, i < qs.length → qs.getD i "" = "+" ∨ qs.getD i "" = ts.getD i "" := by
  induction qs generalizing ts with
  | nil =>
    cases ts <;> simp [matchSegs]
  | cons q qs ih =>
    have hq1 : q ≠ "#" := fun h => hq (by simp [h])
    have hqs : "#" ∉ qs := fun h => hq (List.mem_cons_of_mem _ h)
    cases ts with
    | nil =>
      simp [matchSegs]
    | cons t ts =>
      by_cases hqt : q = "+" ∨ q = t
      · have hcond : (q != "+" && q != t) = false := by
          rcases hqt with h | h <;> simp [h]
        have hstep : matchSegs (t :: ts) ((q :: qs) ++ ["#"]) = matchSegs ts (qs ++ ["#"]) := by
          simp [matchSegs, hq1, hcond]
        rw [hstep, ih hqs ts]
        constructor
        · rintro ⟨hlen, hall⟩
          refine ⟨by simpa using hlen, ?_⟩
          simp only [List.length_cons]
          rw [forall_lt_succ_head]
          exact ⟨by simpa using hqt, fun i hi => by simpa using hall i hi⟩
        · rintro ⟨hlen, hall⟩
          simp only [List.length_cons] at hall
          rw [forall_lt_succ_head] at hall
          exact ⟨by simpa using hlen, fun i hi => by simpa using hall.2 i hi⟩
      · push_neg at hqt
        have hcond : (q != "+" && q != t) = true := by
          simp [hqt.1, hqt.2]
        have hstep : matchSegs (t :: ts) ((q :: qs) ++ ["#"]) = false := by
          simp [matchSegs, hq1, hcond]
        rw [hstep]
        constructor
        · intro h; cases h
        · rintro ⟨-, hall⟩
          have h0 := hall 0 (Nat.succ_pos _)
          simp [hqt.1, hqt.2] at h0

/-- Every topic matches itself: each pattern segment equals the topic
segment at the same index (an early `#` segment succeeds outright). -/
theorem matchSegs_self (l : List String) : matchSegs l l = true := by
  induction l with
  | nil => simp [matchSegs]
  | cons x xs ih =>
    by_cases hx : x = "#"
    · simp [matchSegs, hx]
    · simp [matchSegs, hx, ih]

/-- A pattern "contains a wildcard" when one of its `/`-segments is `+`
or `#` (the condition the spec uses to describe the second dispatch
delivery). -/
def hasWildcard (p : String) : Bool :=
  (splitSlash p).contains "+" || (splitSlash p).contains "#"

/-- Subscription registry `MQTTClient.message_callbacks`: a Python dict
from pattern string to callback, embedded as an association list with
unique keys; callbacks are identified by numeric handler ids. -/
abbrev Registry := List (String × ℕ)

/-- Python dict lookup `message_callbacks[topic]` (unique keys, so the
first entry with the key is the entry). -/
def lookupCallback (t : String) (reg : Registry) : Option ℕ :=
  (reg.find? (fun e => e.1 == t)).map (·.2)

/-- The delivery log of `MQTTClient._on_message` for one inbound
message: first the exact-key delivery (`if topic in
self.message_callbacks`), then the loop over ALL registered entries
invoking every one whose pattern matches the topic.  Each list element
records the registry entry whose callback was invoked, in invocation
order. -/
def onMessageLog (topic : String) (reg : Registry) : List (String × ℕ) :=
  (match lookupCallback topic reg with
   | some cb => [(topic, cb)]
   | none => []) ++ reg.filter (fun e => topic_matches topic e.1)

/-- With unique keys, `find?` on a key present in the registry returns
exactly that entry. -/
theorem find_eq_of_nodup_keys (reg : Registry) (p : String) (cb : ℕ)
    (hnd : (reg.map Prod.fst).Nodup) (hmem : (p, cb) ∈ reg) :
    reg.find? (fun e => e.1 == p) = some (p, cb) := by
  induction reg with
  | nil => cases hmem
  | cons e rest ih =>
    simp only [List.map_cons, List.nodup_cons] at hnd
    rcases List.mem_cons.mp hmem with heq | hrest
    · subst heq
      simp [List.find?]
    · have hne : e.1 ≠ p := by
        intro h
        exact hnd.1 (h ▸ (List.mem_map.mpr ⟨(p, cb), hrest, rfl⟩))
      have : (e.1 == p) = false := beq_false_of_ne hne
      simp [List.find?, this, ih hnd.2 hrest]

/-- With unique keys, an entry present in the registry occurs exactly
once. -/
theorem count_eq_one_of_nodup_keys (reg : Registry) (p : String) (cb : ℕ)
    (hnd : (reg.map Prod.fst).Nodup) (hmem : (p, cb) ∈ reg) :
    reg.count (p, cb) = 1 := by
  induction reg with
  | nil => cases hmem
  | cons e rest ih =>
    simp only [List.map_cons, List.nodup_cons] at hnd
    rcases List.mem_cons.mp hmem with heq | hrest
    · subst heq
      have hzero : rest.count (p, cb) = 0 := by
        rw [List.count_eq_zero]
        intro hmem'
        exact hnd.1 (List.mem_map.mpr ⟨(p, cb), hmem', rfl⟩)
      rw [List.count_cons_self, hzero]
    · have hne : (p, cb) ≠ e := by
        intro h
        apply hnd.1
        rw [← h]
        exact List.mem_map.mpr ⟨(p, cb), hrest, rfl⟩
      rw [List.count_cons_of_ne hne, ih hnd.2 hrest]

/-- Filtering by a predicate the element satisfies does not change its
count. -/
theorem count_filter_of_pos (pred : String × ℕ → Bool) (a : String × ℕ)
    (ha : pred a = true) (l : List (String × ℕ)) :
    (l.filter pred).count a = l.count a := by
  induction l with
  | nil => rfl
  | cons x xs ih =>
    by_cases hx : x = a
    · subst hx
      simp [List.filter_cons, ha, List.count_cons_self, ih]
    · have hxa : a ≠ x := fun h => hx h.symm
      by_cases hpx : pred x = true
      · simp [List.filter_cons, hpx, List.count_cons_of_ne hxa, ih]
      · simp only [Bool.not_eq_true] at hpx
        simp [List.filter_cons, hpx, List.count_cons_of_ne hxa, ih]

/-- Panel-identifier extraction of `MQTTService.handle_solar_panel_data`
(lines 173-185): `topic_parts[0] == "solar" and topic_parts[1] ==
"panel"` with at least three segments takes the third segment; else with
at least two segments take `topic_parts[-1]` unless it is one of
`["data", "status", "command"]`, in which case take `topic_parts[-2]`
when there are at least three segments and `"unknown"` otherwise; else
`"unknown"`. -/
def extract_panel_id (topic : String) : String :=
  let parts := splitSlash topic
  if 3 ≤ parts.length ∧ parts.getD 0 "" = "solar" ∧ parts.getD 1 "" = "panel" then
    parts.getD 2 ""
  else if 2 ≤ parts.length then
    if parts.getD (parts.length - 1) "" ∉ ["data", "status", "command"] then
      parts.getD (parts.length - 1) ""
    else if 3 ≤ parts.length then
      parts.getD (parts.length - 2) ""
    else "unknown"
  else "unknown"

/-- The panel-identifier rule exactly as the claim words it: third
segment after a `solar/panel` prefix; otherwise, with at least two
segments, the last segment unless it is a reserved suffix token, in
which case the second-to-last segment (no further condition); otherwise
`"unknown"`.  Used only to exhibit where this wording and the code
disagree. -/
def claimedPanelId (topic : String) : String :=
  let parts := splitSlash topic
  if 3 ≤ parts.length ∧ parts.getD 0 "" = "solar" ∧ parts.getD 1 "" = "panel" then
    parts.getD 2 ""
  else if 2 ≤ parts.length then
    if parts.getLastD "" ∈ ["data", "status", "command"] then
      parts.getD (parts.length - 2) ""
    else parts.getLastD ""
  else "unknown"

/-- The amended panel-identifier rule: as the claim, except that the
second-to-last segment is used only when the topic has at least three
segments; a two-segment topic ending in a reserved suffix token yields
`"unknown"`. -/
def amendedPanelId (topic : String) : String :=
  let parts := splitSlash topic
  if 3 ≤ parts.length ∧ parts.getD 0 "" = "solar" ∧ parts.getD 1 "" = "panel" then
    parts.getD 2 ""
  else if 2 ≤ parts.length then
    if parts.getLastD "" ∈ ["data", "status", "command"] then
      if 3 ≤ parts.length then parts.getD (parts.length - 2) "" else "unknown"
    else parts.getLastD ""
  else "unknown"

/-- Inbound sensor payload (the decoded JSON dict): the six required
sensor channels and the three image aliases, each either present or
absent. -/
structure Payload where
  temperature : Option ℚ
  humidity : Option ℚ
  light : Option ℚ
  R : Option ℚ
  G : Option ℚ
  B : Option ℚ
  image : Option String := none
  image_path : Option String := none
  image_base64 : Option String := none
deriving DecidableEq, Repr

/-- Python truthiness of an optional string: `None` and `""` are falsy. -/
def truthyOpt : Option String → Option String
  | some s => if s = "" then none else some s
  | none => none

/-- `data.get("image") or data.get("image_path") or
data.get("image_base64")`: the first truthy alias wins. -/
def imageData (d : Payload) : Option String :=
  match truthyOpt d.image with
  | some s => some s
  | none =>
    match truthyOpt d.image_path with
    | some s => some s
    | none => truthyOpt d.image_base64

/-- `missing_fields` check of `handle_solar_panel_data` (lines 163-168):
true when any of the six required sensor fields is absent. -/
def requiredFieldsMissing (d : Payload) : Bool :=
  d.temperature.isNone || d.humidity.isNone || d.light.isNone ||
    d.R.isNone || d.G.isNone || d.B.isNone

/-- Result dict of `predict_cleaning_status` (ml_service.py): the label
is always present; confidence and the class-probability pair are absent
when the model lacks `predict_proba`. -/
structure MLResult where
  ml_prediction : String
  ml_confidence : Option ℚ
  ml_probability : Option (ℚ × ℚ)
deriving DecidableEq, Repr

/-- Result dict of `predict_from_image` (dl_service), as read by
`handle_solar_panel_data` through `.get` calls (each key may be
absent). -/
structure DLResult where
  dl_prediction : Option String
  dl_status : Option String
  dl_confidence : Option ℚ
  dl_predicted_class : Option String
  dl_probability : Option ℚ
  dl_class_probabilities : Option (List (String × ℚ))
deriving DecidableEq, Repr

/-- Outcome of the guarded `upload_image_to_cloudinary` call: the call
may raise (caught by the handler) or return an optional URL. -/
inductive UploadOutcome where
  | raised : UploadOutcome
  | returned : Option String → UploadOutcome
deriving DecidableEq, Repr

/-- Outcome of the guarded `predict_from_image` call: the call may raise
(caught by the handler) or return an optional result dict. -/
inductive DLOutcome where
  | raised : DLOutcome
  | returned : Option DLResult → DLOutcome
deriving DecidableEq, Repr

/-- The enriched dict `handle_solar_panel_data` hands to the persistence
collaborator: the payload plus the optional image URL, the ML and DL
prediction fields (absent and explicitly-set-to-`None` both embed as
`none`), and the trailing metadata. -/
structure EnrichedRecord where
  payload : Payload
  image_url : Option String
  ml_prediction : Option String
  ml_confidence : Option ℚ
  ml_probability : Option (ℚ × ℚ)
  dl_prediction : Option String
  dl_status : Option String
  dl_confidence : Option ℚ
  dl_predicted_class : Option String
  dl_probability : Option ℚ
  dl_class_probabilities : Option (List (String × ℚ))
  panel_id : String
  timestamp : String
  topic : String
deriving DecidableEq, Repr

/-- Observable effects of one `handle_solar_panel_data` call: whether
the ML predictor was invoked, whether the DL predictor was invoked,
whether an image upload was attempted, and the record handed to the
persistence collaborator (none when the message was dropped or the store
was unavailable). -/
structure HandleResult where
  mlInvoked : Bool
  dlInvoked : Bool
  uploadAttempted : Bool
  persisted : Option EnrichedRecord
deriving DecidableEq, Repr

/-- `MQTTService.handle_solar_panel_data` (lines 130-317) on an
already-decoded dict payload.  The collaborators are oracles:
`upload` is what `upload_image_to_cloudinary` does (consulted only when
an image alias is truthy), `ml` is the return of
`predict_cleaning_status`, `dl` what `predict_from_image` does
(consulted only when ML said "dirty" and an image was present), `now`
the ingestion timestamp, and `dbAvailable` whether the Firestore handle
is non-null.  The function is total: every collaborator failure is
caught, mirroring the blanket `except` of the source. -/
def handle_solar_panel_data (topic : String) (d : Payload) (now : String)
    (upload : UploadOutcome) (ml : Option MLResult) (dl : DLOutcome)
    (dbAvailable : Bool) : HandleResult :=
  if requiredFieldsMissing d then
    { mlInvoked := false, dlInvoked := false, uploadAttempted := false, persisted := none }
  else
    let panel_id := extract_panel_id topic
    let img := imageData d
    let image_url : Option String :=
      if img.isSome then
        match upload with
        | .raised => none
        | .returned u => truthyOpt u
      else none
    let base : EnrichedRecord :=
      { payload := d, image_url := image_url
        ml_prediction := none, ml_confidence := none, ml_probability := none
        dl_prediction := none, dl_status := none, dl_confidence := none
        dl_predicted_class := none, dl_probability := none, dl_class_probabilities := none
        panel_id := panel_id, timestamp := now, topic := topic }
    match ml with
    | none =>
      { mlInvoked := true, dlInvoked := false, uploadAttempted := img.isSome
        persisted := if dbAvailable then some base else none }
    | some r =>
      let withMl : EnrichedRecord :=
        { base with ml_prediction := some r.ml_prediction
                    ml_confidence := r.ml_confidence
                    ml_probability := r.ml_probability }
      if r.ml_prediction = "dirty" ∧ img.isSome then
        let enriched : EnrichedRecord :=
          match dl with
          | .returned (some dr) =>
            { withMl with dl_prediction := dr.dl_prediction
                          dl_status := dr.dl_status
                          dl_confidence := dr.dl_confidence
                          dl_predicted_class := dr.dl_predicted_class
                          dl_probability := dr.dl_probability
                          dl_class_probabilities := dr.dl_class_probabilities }
          | .returned none => withMl
          | .raised => withMl
        { mlInvoked := true, dlInvoked := true, uploadAttempted := img.isSome
          persisted := if dbAvailable then some enriched else none }
      else
        { mlInvoked := true, dlInvoked := false, uploadAttempted := img.isSome
          persisted := if dbAvailable then some withMl else none }

/-- Feature vector built by `prepare_features` (ml_service.py, lines
60-104), idealised over exact rationals.  `np.std([R, G, B])` (the
population standard deviation, `ddof=0`) is irrational in general, so
the embedding carries its square `RGB_var`; the code stores the square
root of this value. -/
structure Features where
  temperature : ℚ
  humidity : ℚ
  light : ℚ
  R : ℚ
  G : ℚ
  B : ℚ
  RGB_mean : ℚ
  RGB_var : ℚ
  G_over_R : ℚ
  B_over_R : ℚ
deriving DecidableEq, Repr

/-- `prepare_features(data)`: read the six channels with default `0`
(`data.get(field, 0)`), then derive `RGB_mean = (R+G+B)/3`, the
population variance of `[R, G, B]` (whose square root the code stores as
`RGB_std`), and the ratios `G/(R + 1e-6)` and `B/(R + 1e-6)`. -/
def prepare_features (d : Payload) : Features :=
  let temperature := d.temperature.getD 0
  let humidity := d.humidity.getD 0
  let light := d.light.getD 0
  let r := d.R.getD 0
  let g := d.G.getD 0
  let b := d.B.getD 0
  let RGB_mean := (r + g + b) / 3
  let RGB_var := ((r - RGB_mean) ^ 2 + (g - RGB_mean) ^ 2 + (b - RGB_mean) ^ 2) / 3
  let G_over_R := g / (r + 1 / 1000000)
  let B_over_R := b / (r + 1 / 1000000)
  { temperature := temperature, humidity := humidity, light := light
    R := r, G := g, B := b
    RGB_mean := RGB_mean, RGB_var := RGB_var
    G_over_R := G_over_R, B_over_R := B_over_R }

/-- Connection-relevant state of `MQTTClient`: the `connected` boolean
(`True` exactly in the spec's `Connected` state) and the
`connection_event` threading flag. -/
structure MQTTClientState where
  connected : Bool
  eventSet : Bool
deriving DecidableEq, Repr

/-- State at construction: not connected, event clear. -/
def initState : MQTTClientState := { connected := false, eventSet := false }

/-- `MQTTClient._on_connect`: reason code 0 sets both the connected flag
and the connection event; any other code clears the connected flag and
leaves the event untouched. -/
def on_connect (s : MQTTClientState) (rc : ℕ) : MQTTClientState :=
  if rc = 0 then { connected := true, eventSet := true }
  else { s with connected := false }

/-- `MQTTClient._on_disconnect`: clears the connected flag and the
connection event. -/
def on_disconnect (_s : MQTTClientState) (_rc : ℕ) : MQTTClientState :=
  { connected := false, eventSet := false }

/-- What the background network loop did during the bounded 5-second
wait of `MQTTClient.connect`: either `client.connect` raised
immediately, or no broker acknowledgment arrived before the timeout, or
`_on_connect` ran with the given reason code before the wait expired. -/
inductive ConnectAttempt where
  | raisedEarly : ConnectAttempt
  | noAckWithinTimeout : ConnectAttempt
  | ackWithin : ℕ → ConnectAttempt
deriving DecidableEq, Repr

/-- `MQTTClient.connect` (lines 116-144): on an immediate connect error
the exception is caught and `False` is returned with the state
untouched; on timeout `connection_event.wait(timeout=5)` yields `False`;
when `_on_connect` ran before the wait expired, the wait's result is the
event flag it left behind. -/
def connect (s : MQTTClientState) : ConnectAttempt → Bool × MQTTClientState
  | .raisedEarly => (false, s)
  | .noAckWithinTimeout => (false, s)
  | .ackWithin rc =>
    let s' := on_connect s rc
    (s'.eventSet, s')

/-- `MQTTClient.is_connected`. -/
def is_connected (s : MQTTClientState) : Bool := s.connected

/-- On a nonempty list, indexing at `length - 1` is the last element,
for any defaults. -/
theorem getD_length_sub_one_eq_getLastD (l : List String) (hl : l ≠ [])
    (d₁ d₂ : String) : l.getD (l.length - 1) d₁ = l.getLastD d₂ := by
  induction l generalizing d₂ with
  | nil => exact absurd rfl hl
  | cons x xs ih =>
    cases xs with
    | nil => rfl
    | cons y ys =>
      have hidx : (x :: y :: ys).length - 1 = ((y :: ys).length - 1) + 1 := by
        simp
      rw [hidx, List.getD_cons_succ, List.getLastD_cons]
      exact ih (by simp) x

/-- C1: for a pattern with no `#` segment, `_topic_matches` succeeds
exactly when topic and pattern have the same number of `/`-segments and
each pattern segment is `+` or equals the topic segment at the same
index; in particular
`matches("solar/panel/panel1/data", "solar/panel/+/data")` is true and
`matches("solar/panel/panel1", "solar/panel/+/data")` is false. -/
theorem topic_matches_no_hash_iff (T P : String)
    (hP : "#" ∉ splitSlash P) :
    (topic_matches T P = true ↔
      (splitSlash T).length = (splitSlash P).length ∧
      ∀ i, i < (splitSlash P).length →
        (splitSlash P).getD i "" = "+" ∨
          (splitSlash P).getD i "" = (splitSlash T).getD i "") ∧
    topic_matches "solar/panel/panel1/data" "solar/panel/+/data" = true ∧
    topic_matches "solar/panel/panel1" "solar/panel/+/data" = false :=
  ⟨matchSegs_no_hash (splitSlash P) hP (splitSlash T), rfl, rfl⟩

/-- Witness for `topic_matches_no_hash_iff` at the concrete topic
`a/b` and pattern `a/+`. -/
theorem topic_matches_no_hash_iff_witness :
    "#" ∉ splitSlash "a/+" ∧
    ((topic_matches "a/b" "a/+" = true ↔
      (splitSlash "a/b").length = (splitSlash "a/+").length ∧
      ∀ i, i < (splitSlash "a/+").length →
        (splitSlash "a/+").getD i "" = "+" ∨
          (splitSlash "a/+").getD i "" = (splitSlash "a/b").getD i "") ∧
    topic_matches "solar/panel/panel1/data" "solar/panel/+/data" = true ∧
    topic_matches "solar/panel/panel1" "solar/panel/+/data" = false) :=
  ⟨by decide, topic_matches_no_hash_iff "a/b" "a/+" (by decide)⟩

/-- C2 counterexample: the claim says a topic matches a `#`-pattern
whenever every segment before the `#` equals the corresponding prefix of
the topic, "regardless of how many segments T has beyond that prefix" —
so it demands `matches("solar/panel", "solar/panel/#") = true` (the
prefix `solar/panel` matches and the topic extends it by zero segments).
The code checks `i >= len(topic_parts)` before looking at `#`, so the
match fails. -/
theorem topic_matches_hash_counterexample :
    splitSlash "solar/panel/#" = ["solar", "panel", "#"] ∧
    splitSlash "solar/panel" = ["solar", "panel"] ∧
    topic_matches "solar/panel" "solar/panel/#" = false :=
  ⟨rfl, rfl, rfl⟩

/-- C2 (amended): for a pattern whose final segment is `#` and with no
earlier `#` segment, `_topic_matches` succeeds exactly when the topic
has STRICTLY more segments than the pattern's pre-`#` prefix and each
prefix segment is `+` or equals the topic segment at the same index; a
topic consisting of exactly the prefix segments does not match.  In
particular `matches("solar/panel/panel1/data/extra", "solar/panel/#")`
is true. -/
theorem topic_matches_hash_iff (T P : String) (qs : List String)
    (hsplit : splitSlash P = qs ++ ["#"]) (hq : "#" ∉ qs) :
    (topic_matches T P = true ↔
      qs.length < (splitSlash T).length ∧
      ∀ i, i < qs.length →
        qs.getD i "" = "+" ∨ qs.getD i "" = (splitSlash T).getD i "") ∧
    topic_matches "solar/panel/panel1/data/extra" "solar/panel/#" = true := by
  refine ⟨?_, rfl⟩
  rw [topic_matches, hsplit]
  exact matchSegs_hash qs hq (splitSlash T)

/-- Witness for `topic_matches_hash_iff` at the concrete topic
`solar/panel/p1` and pattern `solar/panel/#`. -/
theorem topic_matches_hash_iff_witness :
    splitSlash "solar/panel/#" = ["solar", "panel"] ++ ["#"] ∧
    "#" ∉ ["solar", "panel"] ∧
    ((topic_matches "solar/panel/p1" "solar/panel/#" = true ↔
      (["solar", "panel"] : List String).length <
        (splitSlash "solar/panel/p1").length ∧
      ∀ i, i < (["solar", "panel"] : List String).length →
        (["solar", "panel"] : List String).getD i "" = "+" ∨
          (["solar", "panel"] : List String).getD i "" =
            (splitSlash "solar/panel/p1").getD i "") ∧
    topic_matches "solar/panel/panel1/data/extra" "solar/panel/#" = true) :=
  ⟨by decide, by decide,
    topic_matches_hash_iff "solar/panel/p1" "solar/panel/#" ["solar", "panel"]
      (by decide) (by decide)⟩

/-- C3: `_on_message` performs two independent deliveries — an
exact-key registry hit invokes that callback, and every registered
wildcard pattern matching the topic invokes its callback as well; with
both `solar/panel/panel1/data` and `solar/panel/#` registered, one
message on `solar/panel/panel1/data` invokes both handlers (the exact
handler even twice, since the loop also reaches it). -/
theorem on_message_dispatch_independent (reg : Registry) (t p : String)
    (cb cbw : ℕ) :
    (lookupCallback t reg = some cb →
      cb ∈ (onMessageLog t reg).map Prod.snd) ∧
    ((p, cbw) ∈ reg → hasWildcard p = true → topic_matches t p = true →
      cbw ∈ (onMessageLog t reg).map Prod.snd) ∧
    (onMessageLog "solar/panel/panel1/data"
        [("solar/panel/panel1/data", 1), ("solar/panel/#", 2)]).map Prod.snd
      = [1, 1, 2] := by
  refine ⟨?_, ?_, by decide⟩
  · intro h
    simp [onMessageLog, h]
  · intro hmem _ hmatch
    have hf : (p, cbw) ∈ reg.filter (fun e => topic_matches t e.1) :=
      List.mem_filter.mpr ⟨hmem, by simpa using hmatch⟩
    exact List.mem_map.mpr ⟨(p, cbw), List.mem_append_right _ hf, rfl⟩

/-- Witness for `on_message_dispatch_independent` on the registry of
the claim's example. -/
theorem on_message_dispatch_independent_witness :
    1 ∈ (onMessageLog "solar/panel/panel1/data"
        [("solar/panel/panel1/data", 1), ("solar/panel/#", 2)]).map Prod.snd ∧
    2 ∈ (onMessageLog "solar/panel/panel1/data"
        [("solar/panel/panel1/data", 1), ("solar/panel/#", 2)]).map Prod.snd :=
  ⟨(on_message_dispatch_independent
      [("solar/panel/panel1/data", 1), ("solar/panel/#", 2)]
      "solar/panel/panel1/data" "solar/panel/#" 1 2).1 (by decide),
   (on_message_dispatch_independent
      [("solar/panel/panel1/data", 1), ("solar/panel/#", 2)]
      "solar/panel/panel1/data" "solar/panel/#" 1 2).2.1
      (by decide) (by decide) (by decide)⟩

/-- C10: a wildcard-free registered pattern self-matches, so a message
whose topic equals the pattern invokes that registration's callback
exactly twice — once by the exact-key lookup and once by the loop over
all registered patterns. -/
theorem on_message_exact_pattern_fires_twice (reg : Registry) (p : String)
    (cb : ℕ) (hnd : (reg.map Prod.fst).Nodup) (hmem : (p, cb) ∈ reg)
    (_hnw : hasWildcard p = false) :
    topic_matches p p = true ∧ (onMessageLog p reg).count (p, cb) = 2 := by
  have hself : topic_matches p p = true := matchSegs_self _
  refine ⟨hself, ?_⟩
  have hlook : lookupCallback p reg = some cb := by
    unfold lookupCallback
    rw [find_eq_of_nodup_keys reg p cb hnd hmem]
    rfl
  unfold onMessageLog
  rw [hlook, List.count_append]
  have hfilter :
      (reg.filter (fun e => topic_matches p e.1)).count (p, cb) = 1 := by
    rw [count_filter_of_pos _ _ (by simpa using hself) reg]
    exact count_eq_one_of_nodup_keys reg p cb hnd hmem
  rw [hfilter]
  simp [List.count_cons]

/-- Witness for `on_message_exact_pattern_fires_twice` on the
single-entry registry `{a/b ↦ 7}`. -/
theorem on_message_exact_pattern_fires_twice_witness :
    (([("a/b", 7)] : Registry).map Prod.fst).Nodup ∧
    topic_matches "a/b" "a/b" = true ∧
    (onMessageLog "a/b" [("a/b", 7)]).count ("a/b", 7) = 2 :=
  ⟨by decide,
    on_message_exact_pattern_fires_twice [("a/b", 7)] "a/b" 7
      (by decide) (by decide) (by decide)⟩

/-- C7 counterexample: the claim's rule says a topic with at least two
segments whose last segment is a reserved suffix token takes the
second-to-last segment, so it assigns `panel7` to the topic
`panel7/data`; the code additionally requires at least three segments
before using the second-to-last and yields `unknown` here. -/
theorem extract_panel_id_counterexample :
    claimedPanelId "panel7/data" = "panel7" ∧
    extract_panel_id "panel7/data" = "unknown" :=
  ⟨by decide, by decide⟩

/-- C7 (amended): the panel identifier follows the claim's ordered rule
with one repair — the second-to-last segment is used only when the topic
has at least three segments, and a two-segment topic ending in a
reserved suffix token yields `unknown`. -/
theorem extract_panel_id_eq_amended (topic : String) :
    extract_panel_id topic = amendedPanelId topic := by
  simp only [extract_panel_id, amendedPanelId]
  by_cases h1 : 3 ≤ (splitSlash topic).length ∧
      (splitSlash topic).getD 0 "" = "solar" ∧
      (splitSlash topic).getD 1 "" = "panel"
  · rw [if_pos h1, if_pos h1]
  · rw [if_neg h1, if_neg h1]
    by_cases h2 : 2 ≤ (splitSlash topic).length
    · have hne : splitSlash topic ≠ [] := by
        intro h
        rw [h] at h2
        simp at h2
      rw [if_pos h2, if_pos h2,
        getD_length_sub_one_eq_getLastD (splitSlash topic) hne "" ""]
      by_cases h3 : (splitSlash topic).getLastD "" ∈ ["data", "status", "command"]
      · rw [if_neg (not_not_intro h3), if_pos h3]
      · rw [if_pos h3, if_neg h3]
    · rw [if_neg h2, if_neg h2]

/-- C5: a payload missing any of the six required sensor fields is
discarded after logging: no upload is attempted, neither predictor is
invoked, and nothing reaches the persistence collaborator. -/
theorem handle_drops_on_missing_field (topic : String) (d : Payload)
    (now : String) (upload : UploadOutcome) (ml : Option MLResult)
    (dl : DLOutcome) (db : Bool) (hmiss : requiredFieldsMissing d = true) :
    handle_solar_panel_data topic d now upload ml dl db =
      { mlInvoked := false, dlInvoked := false, uploadAttempted := false
        persisted := none } := by
  unfold handle_solar_panel_data
  rw [if_pos hmiss]

/-- Witness for `handle_drops_on_missing_field`: a payload without
`humidity` is dropped with no effects. -/
theorem handle_drops_on_missing_field_witness :
    requiredFieldsMissing
      { temperature := some 25, humidity := none, light := some 800,
        R := some 142, G := some 136, B := some 125 } = true ∧
    handle_solar_panel_data "solar/panel/p1/data"
      { temperature := some 25, humidity := none, light := some 800,
        R := some 142, G := some 136, B := some 125 } "t0"
      (.returned none) none (.returned none) true =
      { mlInvoked := false, dlInvoked := false, uploadAttempted := false
        persisted := none } :=
  ⟨by decide,
    handle_drops_on_missing_field "solar/panel/p1/data"
      { temperature := some 25, humidity := none, light := some 800,
        R := some 142, G := some 136, B := some 125 } "t0"
      (.returned none) none (.returned none) true (by decide)⟩

/-- C6: when `predict_cleaning_status` yields no result, the handler
records the ML triple and the DL triple as null, never reaches the DL
stage, and still attaches metadata and persists the degraded record
(when the store is available).  The embedding is a total function: the
source's blanket `except` keeps any failure from crossing the ingestion
boundary. -/
theorem handle_ml_unavailable_degrades (topic : String) (d : Payload)
    (now : String) (upload : UploadOutcome) (dl : DLOutcome) (db : Bool)
    (hval : requiredFieldsMissing d = false) :
    (handle_solar_panel_data topic d now upload none dl db).mlInvoked = true ∧
    (handle_solar_panel_data topic d now upload none dl db).dlInvoked = false ∧
    (db = true → ∃ recd,
      (handle_solar_panel_data topic d now upload none dl db).persisted = some recd ∧
      recd.ml_prediction = none ∧ recd.ml_confidence = none ∧
      recd.ml_probability = none ∧ recd.dl_prediction = none ∧
      recd.dl_status = none ∧ recd.dl_confidence = none ∧
      recd.panel_id = extract_panel_id topic ∧ recd.timestamp = now ∧
      recd.topic = topic ∧ recd.payload = d) := by
  unfold handle_solar_panel_data
  rw [if_neg (by simp [hval])]
  refine ⟨rfl, rfl, ?_⟩
  rintro rfl
  exact ⟨_, rfl, rfl, rfl, rfl, rfl, rfl, rfl, rfl, rfl, rfl, rfl⟩

/-- Witness for `handle_ml_unavailable_degrades` on a valid payload with
the ML oracle unavailable. -/
theorem handle_ml_unavailable_degrades_witness :
    requiredFieldsMissing
      { temperature := some 25, humidity := some 40, light := some 800,
        R := some 142, G := some 136, B := some 125 } = false ∧
    (handle_solar_panel_data "solar/panel/p1/data"
      { temperature := some 25, humidity := some 40, light := some 800,
        R := some 142, G := some 136, B := some 125 } "t0"
      (.returned none) none (.returned none) true).mlInvoked = true ∧
    (handle_solar_panel_data "solar/panel/p1/data"
      { temperature := some 25, humidity := some 40, light := some 800,
        R := some 142, G := some 136, B := some 125 } "t0"
      (.returned none) none (.returned none) true).dlInvoked = false :=
  ⟨by decide,
    (handle_ml_unavailable_degrades "solar/panel/p1/data"
      { temperature := some 25, humidity := some 40, light := some 800,
        R := some 142, G := some 136, B := some 125 } "t0"
      (.returned none) (.returned none) true (by decide)).1,
    (handle_ml_unavailable_degrades "solar/panel/p1/data"
      { temperature := some 25, humidity := some 40, light := some 800,
        R := some 142, G := some 136, B := some 125 } "t0"
      (.returned none) (.returned none) true (by decide)).2.1⟩

/-- C4: a persisted record carries DL fields only when the ML stage said
"dirty" AND a truthy image alias was present; in every other case the
three DL fields are null/absent, and an ML "dirty" obtained without an
image is still retained in `ml_prediction`. -/
theorem handle_dl_gating (topic : String) (d : Payload) (now : String)
    (upload : UploadOutcome) (ml : Option MLResult) (dl : DLOutcome)
    (db : Bool) (recd : EnrichedRecord)
    (hp : (handle_solar_panel_data topic d now upload ml dl db).persisted
      = some recd) :
    ((recd.dl_prediction.isSome ∨ recd.dl_status.isSome ∨
        recd.dl_confidence.isSome) →
      (imageData d).isSome = true ∧ ∃ r, ml = some r ∧ r.ml_prediction = "dirty") ∧
    (∀ r, ml = some r → r.ml_prediction = "dirty" → imageData d = none →
      recd.ml_prediction = some "dirty" ∧ recd.dl_prediction = none ∧
      recd.dl_status = none ∧ recd.dl_confidence = none) := by
  by_cases hmiss : requiredFieldsMissing d = true
  · unfold handle_solar_panel_data at hp
    rw [if_pos hmiss] at hp
    exact absurd hp (by simp)
  · unfold handle_solar_panel_data at hp
    rw [if_neg hmiss] at hp
    cases ml with
    | none =>
      dsimp only at hp
      cases db with
      | false => exact absurd hp (by simp)
      | true =>
        rw [if_pos rfl] at hp
        injection hp with hp
        subst hp
        constructor
        · rintro (h | h | h) <;> simp at h
        · intro r hr
          exact absurd hr (by simp)
    | some r =>
      dsimp only at hp
      by_cases hcond : r.ml_prediction = "dirty" ∧ (imageData d).isSome = true
      · rw [if_pos (by simpa using hcond)] at hp
        constructor
        · intro _
          exact ⟨hcond.2, r, rfl, hcond.1⟩
        · intro r' hr' hdirty himg
          rw [himg] at hcond
          exact absurd hcond.2 (by simp)
      · rw [if_neg (by simpa using hcond)] at hp
        cases db with
        | false => exact absurd hp (by simp)
        | true =>
          rw [if_pos rfl] at hp
          injection hp with hp
          subst hp
          constructor
          · rintro (h | h | h) <;> simp at h
          · intro r' hr' hdirty _
            injection hr' with hr'
            subst hr'
            exact ⟨by rw [hdirty], rfl, rfl, rfl⟩

/-- Witness for `handle_dl_gating`: ML says "dirty" but no image alias
is present, so the persisted record keeps `ml_prediction = "dirty"` and
has null DL fields. -/
theorem handle_dl_gating_witness :
    ((handle_solar_panel_data "solar/panel/p1/data"
      { temperature := some 25, humidity := some 40, light := some 800,
        R := some 142, G := some 136, B := some 125 } "t0"
      (.returned none)
      (some { ml_prediction := "dirty", ml_confidence := some 1
              ml_probability := none })
      (.returned none) true).persisted = some
      { payload :=
          { temperature := some 25, humidity := some 40, light := some 800,
            R := some 142, G := some 136, B := some 125 }
        image_url := none, ml_prediction := some "dirty"
        ml_confidence := some 1, ml_probability := none
        dl_prediction := none, dl_status := none, dl_confidence := none
        dl_predicted_class := none, dl_probability := none
        dl_class_probabilities := none
        panel_id := "p1", timestamp := "t0"
        topic := "solar/panel/p1/data" }) ∧
    ({ payload :=
          { temperature := some 25, humidity := some 40, light := some 800,
            R := some 142, G := some 136, B := some 125 }
       image_url := none, ml_prediction := some "dirty"
       ml_confidence := some 1, ml_probability := none
       dl_prediction := none, dl_status := none, dl_confidence := none
       dl_predicted_class := none, dl_probability := none
       dl_class_probabilities := none
       panel_id := "p1", timestamp := "t0"
       topic := "solar/panel/p1/data" } : EnrichedRecord).ml_prediction
        = some "dirty" ∧
    ({ payload :=
          { temperature := some 25, humidity := some 40, light := some 800,
            R := some 142, G := some 136, B := some 125 }
       image_url := none, ml_prediction := some "dirty"
       ml_confidence := some 1, ml_probability := none
       dl_prediction := none, dl_status := none, dl_confidence := none
       dl_predicted_class := none, dl_probability := none
       dl_class_probabilities := none
       panel_id := "p1", timestamp := "t0"
       topic := "solar/panel/p1/data" } : EnrichedRecord).dl_prediction
        = none := by
  refine ⟨by decide, ?_, by decide⟩
  have h := (handle_dl_gating "solar/panel/p1/data"
      { temperature := some 25, humidity := some 40, light := some 800,
        R := some 142, G := some 136, B := some 125 } "t0"
      (.returned none)
      (some { ml_prediction := "dirty", ml_confidence := some 1
              ml_probability := none })
      (.returned none) true
      { payload :=
          { temperature := some 25, humidity := some 40, light := some 800,
            R := some 142, G := some 136, B := some 125 }
        image_url := none, ml_prediction := some "dirty"
        ml_confidence := some 1, ml_probability := none
        dl_prediction := none, dl_status := none, dl_confidence := none
        dl_predicted_class := none, dl_probability := none
        dl_class_probabilities := none
        panel_id := "p1", timestamp := "t0"
        topic := "solar/panel/p1/data" }
      (by decide)).2
      { ml_prediction := "dirty", ml_confidence := some 1
        ml_probability := none } rfl rfl (by decide)
  exact h.1

/-- C8: `prepare_features` extends the raw channels with
`mean = (R+G+B)/3`, the population variance of `[R, G, B]` (stated here
in the equivalent mean-of-squares form; the code stores its square
root), and the ratios `G/(R+1e-6)`, `B/(R+1e-6)`; for `R=142, G=136,
B=125` the mean is `403/3 = 134.333…` and
`ratio_G = 136/142.000001 = 0.9577…`. -/
theorem prepare_features_formulas (t h l r g b : ℚ) :
    (prepare_features
      { temperature := some t, humidity := some h,
        light := some l, R := some r, G := some g, B := some b }).RGB_mean
      = (r + g + b) / 3 ∧
    (prepare_features
      { temperature := some t, humidity := some h,
        light := some l, R := some r, G := some g, B := some b }).RGB_var
      = (r ^ 2 + g ^ 2 + b ^ 2) / 3 - ((r + g + b) / 3) ^ 2 ∧
    (prepare_features
      { temperature := some t, humidity := some h,
        light := some l, R := some r, G := some g, B := some b }).G_over_R
      = g / (r + 1 / 1000000) ∧
    (prepare_features
      { temperature := some t, humidity := some h,
        light := some l, R := some r, G := some g, B := some b }).B_over_R
      = b / (r + 1 / 1000000) ∧
    (prepare_features
      { temperature := some 25, humidity := some 40,
        light := some 800, R := some 142, G := some 136, B := some 125 }).RGB_mean = 403 / 3 ∧
    (prepare_features
      { temperature := some 25, humidity := some 40,
        light := some 800, R := some 142, G := some 136, B := some 125 }).G_over_R = 136000000 / 142000001 ∧
    |(prepare_features
      { temperature := some 25, humidity := some 40,
        light := some 800, R := some 142, G := some 136, B := some 125 }).G_over_R - 9577 / 10000| < 1 / 10000 := by
  refine ⟨rfl, ?_, rfl, rfl, by norm_num [prepare_features],
    by norm_num [prepare_features], ?_⟩
  · show ((r - (r + g + b) / 3) ^ 2 + (g - (r + g + b) / 3) ^ 2 +
      (b - (r + g + b) / 3) ^ 2) / 3
        = (r ^ 2 + g ^ 2 + b ^ 2) / 3 - ((r + g + b) / 3) ^ 2
    ring
  · have hval : (prepare_features
      { temperature := some 25, humidity := some 40,
        light := some 800, R := some 142, G := some 136, B := some 125 }).G_over_R = 136000000 / 142000001 := by
      norm_num [prepare_features]
    rw [hval, abs_sub_lt_iff]
    constructor <;> norm_num

/-- C9: an unacknowledged connect attempt — the call raising
immediately, or no broker acknowledgment (reason 0 callback) before the
bounded wait expires — makes `connect` return `False` without raising
and leaves the client not `Connected`; `is_connected` reports `True`
only after an acknowledgment with reason code 0. -/
theorem connect_unacknowledged_safe (s : MQTTClientState)
    (hc : s.connected = false) (he : s.eventSet = false) :
    (connect s .raisedEarly).1 = false ∧
    is_connected (connect s .raisedEarly).2 = false ∧
    (connect s .noAckWithinTimeout).1 = false ∧
    is_connected (connect s .noAckWithinTimeout).2 = false ∧
    (∀ rc, rc ≠ 0 → (connect s (.ackWithin rc)).1 = false ∧
      is_connected (connect s (.ackWithin rc)).2 = false) ∧
    (∀ a, is_connected (connect s a).2 = true →
      a = ConnectAttempt.ackWithin 0) := by
  refine ⟨rfl, hc, rfl, hc, ?_, ?_⟩
  · intro rc hrc
    simp [connect, on_connect, is_connected, hrc, he]
  · intro a ha
    cases a with
    | raisedEarly => exact absurd ha (by simp [connect, is_connected, hc])
    | noAckWithinTimeout => exact absurd ha (by simp [connect, is_connected, hc])
    | ackWithin rc =>
      by_cases hrc : rc = 0
      · rw [hrc]
      · exact absurd ha (by simp [connect, on_connect, is_connected, hrc])

/-- Witness for `connect_unacknowledged_safe` from the freshly
constructed client state. -/
theorem connect_unacknowledged_safe_witness :
    initState.connected = false ∧ initState.eventSet = false ∧
    (connect initState .noAckWithinTimeout).1 = false ∧
    is_connected (connect initState (.ackWithin 3)).2 = false :=
  ⟨rfl, rfl, (connect_unacknowledged_safe initState rfl rfl).2.2.1,
    ((connect_unacknowledged_safe initState rfl rfl).2.2.2.2.1 3
      (by decide)).2⟩

end SolarPanelApi
